import Mathlib

/-
Verification of the buffer-object memory manager in src/module/evdi_gem.c.

The C functions are shallowly embedded as pure Lean functions. Kernel state
mutated through pointers becomes explicit state passing on EvdiGemObject;
calls into external collaborators (DRM core, dma-buf subsystem, the platform
page allocator) are recorded as events in a trace list, and their results are
supplied as oracle arguments (Except / Option / Bool parameters). Machine
integers are Nat with explicit reduction modulo 2 ^ 32 or 2 ^ 64 exactly where
the C types (u32 arithmetic, unsigned long subtraction) can wrap.
-/

namespace Evdi

/-- PAGE_SIZE of the modelled platform, 4096 bytes. -/
def PAGE_SIZE : Nat := 4096

/-- PAGE_SHIFT, with PAGE_SIZE = 2 ^ PAGE_SHIFT. -/
def PAGE_SHIFT : Nat := 12

/-- Modulus of 32-bit unsigned arithmetic. -/
def U32 : Nat := 2 ^ 32

/-- Modulus of 64-bit unsigned arithmetic (unsigned long, u64). -/
def U64 : Nat := 2 ^ 64

/-- errno value ENOMEM = 12; the kernel returns it negated. -/
def ENOMEM : Int := 12

/-- errno value ENOENT = 2. -/
def ENOENT : Int := 2

/-- errno value EAGAIN = 11. -/
def EAGAIN : Int := 11

/-- errno value ERESTARTSYS = 512. -/
def ERESTARTSYS : Int := 512

/-- The three fault-handler return codes that evdi_gem_fault can produce:
VM_FAULT_NOPAGE, VM_FAULT_OOM and VM_FAULT_SIGBUS. -/
inductive VmFault
  | NOPAGE
  | OOM
  | SIGBUS
  deriving DecidableEq

/-- Calls made into external collaborators, recorded as trace events.
For calls whose argument matters to a claim the argument is carried
(for example the page-array pointer handed to drm_gem_put_pages). -/
inductive Event
  | getDevice
  | putDevice
  | dmaBufAttach
  | dmaBufDetach
  | getDmaBuf
  | dmaBufPut
  | dmaBufMapAttachment
  | dmaBufUnmapAttachment
  | dmaBufVmap
  | dmaBufVunmap (addr : Option Nat)
  | vmapCall
  | vunmapCall (addr : Nat)
  | drmGemGetPages
  | drmGemPutPages (pages : Option (List Nat))
  | drmFreeLarge (pages : Option (List Nat))
  | drmMallocAb
  | allocObject (size : Nat)
  | gemObjectRelease
  | kfreeObj
  | gemObjectUnreference
  | drmPrimeGemDestroy
  | freeMmapOffset
  deriving DecidableEq

/-- State of a struct evdi_gem_object: the base object size, the page array
(obj->pages, none when NULL), whether base.import_attach is set, the kernel
mapping address (obj->vmapping, none when NULL) and the scatter-gather table
reference (obj->sg). Pages and addresses are abstract Nat identifiers. -/
structure EvdiGemObject where
  (size : Nat)
  (pages : Option (List Nat))
  (importAttach : Bool)
  (vmapping : Option Nat)
  (sg : Option Nat)
  deriving DecidableEq

/-- evdi_gem_get_pages (lines 118-138): if obj->pages is already set, return 0
immediately with no allocator call; otherwise call drm_gem_get_pages, whose
result is the oracle argument: an error pointer propagates PTR_ERR, a page
array is stored in obj->pages. -/
def evdi_gem_get_pages (obj : EvdiGemObject) (alloc : Except Int (List Nat)) :
    Int × EvdiGemObject × List Event :=
  match obj.pages with
  | some _ => (0, obj, [])
  | none =>
    match alloc with
    | Except.error e => (e, obj, [Event.drmGemGetPages])
    | Except.ok ps => (0, { obj with pages := some ps }, [Event.drmGemGetPages])

/-- evdi_gem_put_pages (lines 140-150): for an imported object only the local
page-reference array is freed (drm_free_large); otherwise the pages are
returned through drm_gem_put_pages. In both branches the call receives the
current obj->pages value, NULL included, and obj->pages is cleared after. -/
def evdi_gem_put_pages (obj : EvdiGemObject) : EvdiGemObject × List Event :=
  if obj.importAttach then
    ({ obj with pages := none }, [Event.drmFreeLarge obj.pages])
  else
    ({ obj with pages := none }, [Event.drmGemPutPages obj.pages])

/-- evdi_gem_vmap (lines 152-175): imported objects map through dma_buf_vmap
(oracle dmaVmapAddr, none meaning a NULL result, which yields -ENOMEM);
otherwise pages are materialized via evdi_gem_get_pages and vmap is called
(oracle vmapAddr). A NULL mapping result is stored before the check, so the
failure state has vmapping = none. -/
def evdi_gem_vmap (obj : EvdiGemObject) (alloc : Except Int (List Nat))
    (vmapAddr : Option Nat) (dmaVmapAddr : Option Nat) :
    Int × EvdiGemObject × List Event :=
  if obj.importAttach then
    match dmaVmapAddr with
    | none => (-ENOMEM, { obj with vmapping := none }, [Event.dmaBufVmap])
    | some a => (0, { obj with vmapping := some a }, [Event.dmaBufVmap])
  else
    let r := evdi_gem_get_pages obj alloc
    if r.1 = 0 then
      match vmapAddr with
      | none => (-ENOMEM, { r.2.1 with vmapping := none }, r.2.2 ++ [Event.vmapCall])
      | some a => (0, { r.2.1 with vmapping := some a }, r.2.2 ++ [Event.vmapCall])
    else (r.1, r.2.1, r.2.2)

/-- evdi_gem_vunmap (lines 177-191): imported objects call dma_buf_vunmap with
the current obj->vmapping (NULL included) and clear it; otherwise vunmap is
called only when a mapping exists, and evdi_gem_put_pages runs
unconditionally afterwards — even with obj->pages already NULL. -/
def evdi_gem_vunmap (obj : EvdiGemObject) : EvdiGemObject × List Event :=
  if obj.importAttach then
    ({ obj with vmapping := none }, [Event.dmaBufVunmap obj.vmapping])
  else
    match obj.vmapping with
    | some a =>
      let p := evdi_gem_put_pages { obj with vmapping := none }
      (p.1, Event.vunmapCall a :: p.2)
    | none => evdi_gem_put_pages obj

/-- evdi_gem_free_object (lines 193-211): (1) if obj->vmapping is set, call
evdi_gem_vunmap; (2) if import_attach is set, call drm_prime_gem_destroy and
put_device; (3) if obj->pages is still set, call evdi_gem_put_pages;
(4) call drm_gem_free_mmap_offset. Step 2 does not change the modelled
object fields used by step 3. -/
def evdi_gem_free_object (obj : EvdiGemObject) : EvdiGemObject × List Event :=
  let s1 := if obj.vmapping.isSome then evdi_gem_vunmap obj else (obj, [])
  let t2 := if s1.1.importAttach then
      [Event.drmPrimeGemDestroy, Event.putDevice] else []
  let s3 := if s1.1.pages.isSome then evdi_gem_put_pages s1.1 else (s1.1, [])
  (s3.1, s1.2 ++ t2 ++ s3.2 ++ [Event.freeMmapOffset])

/-- page_offset computation of evdi_gem_fault (lines 94, 97-98): the unsigned
long subtraction (vmf->virtual_address - vma->vm_start) wraps modulo 2 ^ 64,
is shifted right by PAGE_SHIFT, and the result is then assigned to the
unsigned int variable page_offset, truncating it modulo 2 ^ 32. Arguments are
assumed to be u64 values, so vmStart is added to by U64 before subtracting to
mirror the wrap. -/
def fault_page_offset (vmStart addr : Nat) : Nat :=
  (((addr + U64 - vmStart) % U64) / 2 ^ PAGE_SHIFT) % U32

/-- evdi_gem_fault (lines 90-116): with obj->pages NULL the handler returns
VM_FAULT_SIGBUS without touching the array; otherwise it reads
obj->pages[page_offset] with no bounds check (modelled by getD with an
arbitrary default) and calls vm_insert_page, whose result is the oracle ins.
Return codes 0, -EAGAIN and -ERESTARTSYS all map to VM_FAULT_NOPAGE,
-ENOMEM maps to VM_FAULT_OOM, anything else to VM_FAULT_SIGBUS. The second
component records the index at which the page array was read (none when the
handler returned before the read). -/
def evdi_gem_fault (obj : EvdiGemObject) (vmStart addr : Nat) (ins : Nat → Int) :
    VmFault × Option Nat :=
  let off := fault_page_offset vmStart addr
  match obj.pages with
  | none => (VmFault.SIGBUS, none)
  | some ps =>
    let ret := ins (ps.getD off 0)
    if ret = -EAGAIN ∨ ret = 0 ∨ ret = -ERESTARTSYS then (VmFault.NOPAGE, some off)
    else if ret = -ENOMEM then (VmFault.OOM, some off)
    else (VmFault.SIGBUS, some off)

/-- Kernel roundup macro on Nat (inputs here stay far below 2 ^ 64). -/
def roundup (x m : Nat) : Nat := (x + m - 1) / m * m

/-- evdi_gem_create (lines 34-61): rounds the size up to PAGE_SIZE, allocates
the object (oracle allocOk; NULL yields -ENOMEM with no event since nothing
was built), then registers a handle (oracle handleRes). On handle failure the
object is released and kfreed; on success the transient reference is dropped
and the handle returned. -/
def evdi_gem_create (size : Nat) (allocOk : Bool) (handleRes : Except Int Nat) :
    Except Int Nat × List Event :=
  let rsize := roundup size PAGE_SIZE
  if allocOk then
    match handleRes with
    | Except.error e =>
      (Except.error e, [Event.allocObject rsize, Event.gemObjectRelease, Event.kfreeObj])
    | Except.ok h =>
      (Except.ok h, [Event.allocObject rsize, Event.gemObjectUnreference])
  else (Except.error (-ENOMEM), [])

/-- DIV_ROUND_UP on u32 operands: the sum n + d - 1 is computed in 32-bit
arithmetic, so it is reduced modulo 2 ^ 32 before the division. -/
def DIV_ROUND_UP_u32 (n d : Nat) : Nat := ((n + d - 1) % U32) / d

/-- Result record of evdi_dumb_create: the pitch and size stored into the
argument struct, the size value passed on to evdi_gem_create, and the
returned handle or error with the trace of evdi_gem_create. -/
structure DumbCreateOut where
  (pitch : Nat)
  (size : Nat)
  (gemCreateSize : Nat)
  (ret : Except Int Nat)
  (events : List Event)

/-- evdi_dumb_create (lines 63-73): args->pitch = width * DIV_ROUND_UP(bpp, 8)
and args->size = args->pitch * args->height are both computed in 32-bit
unsigned arithmetic (all three struct fields are u32), wrapping modulo 2 ^ 32,
before args->size is stored into the 64-bit size field; that size is then
passed to evdi_gem_create. -/
def evdi_dumb_create (width height bpp : Nat) (allocOk : Bool)
    (handleRes : Except Int Nat) : DumbCreateOut :=
  let pitch := (width * DIV_ROUND_UP_u32 bpp 8) % U32
  let size := (pitch * height) % U32
  let r := evdi_gem_create size allocOk handleRes
  { pitch := pitch, size := size, gemCreateSize := size, ret := r.1, events := r.2 }

/-- evdi_gem_mmap (lines 215-248): the handle lookup result is the oracle
lookupRes (none for an invalid handle, yielding -ENOENT with no reference
taken); after a successful lookup, page acquisition and mmap-offset creation
failures are propagated, and every path through the function drops the lookup
reference (gemObjectUnreference) exactly once before returning. The returned
offset is the oracle value on full success. -/
def evdi_gem_mmap (lookupRes : Option EvdiGemObject) (alloc : Except Int (List Nat))
    (offRes : Except Int Nat) : Int × Option Nat × List Event :=
  match lookupRes with
  | none => (-ENOENT, none, [])
  | some gobj =>
    let r := evdi_gem_get_pages gobj alloc
    if r.1 = 0 then
      match offRes with
      | Except.error e => (e, none, r.2.2 ++ [Event.gemObjectUnreference])
      | Except.ok off => (0, some off, r.2.2 ++ [Event.gemObjectUnreference])
    else (r.1, none, r.2.2 ++ [Event.gemObjectUnreference])

/-- evdi_prime_create (lines 250-277): allocates the local object sized
npages * PAGE_SIZE (oracle allocObjOk), then the local page-reference array
via drm_malloc_ab (oracle allocPagesOk). When the array allocation fails the
function returns -ENOMEM without freeing the already-allocated object — the
trace keeps the allocObject event with no release. On success the page array
is derived from the scatter-gather table. -/
def evdi_prime_create (size : Nat) (sg : Nat) (allocObjOk allocPagesOk : Bool) :
    Except Int EvdiGemObject × List Event :=
  let npages := size / PAGE_SIZE
  if allocObjOk then
    if allocPagesOk then
      (Except.ok ⟨npages * PAGE_SIZE, some (List.range npages), false, none, some sg⟩,
       [Event.allocObject (npages * PAGE_SIZE), Event.drmMallocAb])
    else
      (Except.error (-ENOMEM), [Event.allocObject (npages * PAGE_SIZE), Event.drmMallocAb])
  else (Except.error (-ENOMEM), [])

/-- evdi_gem_prime_import (lines 279-319): get_device, dma_buf_attach (oracle
attachRes; failure releases the device reference and returns the attach
error), get_dma_buf, dma_buf_map_attachment (oracle mapRes; failure jumps to
fail_detach: dma_buf_detach, dma_buf_put, put_device, returning the map
error), then evdi_prime_create (failure jumps to fail_unmap, which prepends
dma_buf_unmap_attachment). On success import_attach is set on the object. -/
def evdi_gem_prime_import (dmaBufSize : Nat) (attachRes : Except Int Unit)
    (mapRes : Except Int Nat) (allocObjOk allocPagesOk : Bool) :
    Except Int EvdiGemObject × List Event :=
  let t0 := [Event.getDevice, Event.dmaBufAttach]
  match attachRes with
  | Except.error e => (Except.error e, t0 ++ [Event.putDevice])
  | Except.ok _ =>
    let t1 := t0 ++ [Event.getDmaBuf, Event.dmaBufMapAttachment]
    match mapRes with
    | Except.error e =>
      (Except.error e, t1 ++ [Event.dmaBufDetach, Event.dmaBufPut, Event.putDevice])
    | Except.ok sg =>
      match evdi_prime_create dmaBufSize sg allocObjOk allocPagesOk with
      | (Except.error e, tc) =>
        (Except.error e,
         t1 ++ tc ++ [Event.dmaBufUnmapAttachment, Event.dmaBufDetach,
                      Event.dmaBufPut, Event.putDevice])
      | (Except.ok uobj, tc) =>
        (Except.ok { uobj with importAttach := true }, t1 ++ tc)

/-- An event is a page or mapping teardown call: drm_gem_put_pages,
drm_free_large, vunmap or dma_buf_vunmap. -/
def isPageTeardown : Event → Bool
  | Event.drmGemPutPages _ => true
  | Event.drmFreeLarge _ => true
  | Event.vunmapCall _ => true
  | Event.dmaBufVunmap _ => true
  | _ => false

/-- An event releases one of the three foreign-side acquisitions of
the importing path: the attachment, the foreign-buffer reference or the
device reference. -/
def isForeignRelease : Event → Bool
  | Event.dmaBufDetach => true
  | Event.dmaBufPut => true
  | Event.putDevice => true
  | _ => false

/-- The subsequence of foreign-release events of a trace, in order. -/
def releaseSeq (t : List Event) : List Event := t.filter isForeignRelease

/-- An event releases or frees the local gem object itself. -/
def isObjectRelease : Event → Bool
  | Event.gemObjectRelease => true
  | Event.kfreeObj => true
  | Event.gemObjectUnreference => true
  | _ => false

/-- Number of gemObjectUnreference events in a trace. -/
def countUnref : List Event → Nat
  | [] => 0
  | Event.gemObjectUnreference :: t => countUnref t + 1
  | _ :: t => countUnref t

/-- countUnref distributes over trace concatenation. -/
theorem countUnref_append (t1 t2 : List Event) :
    countUnref (t1 ++ t2) = countUnref t1 + countUnref t2 := by
  induction t1 with
  | nil => simp [countUnref]
  | cons x t ih => cases x <;> (simp [countUnref, ih]; try omega)

/-- evdi_gem_get_pages never drops a gem object reference. -/
theorem countUnref_get_pages (obj : EvdiGemObject) (a : Except Int (List Nat)) :
    countUnref (evdi_gem_get_pages obj a).2.2 = 0 := by
  rcases obj with ⟨s, pg, imp, vm, sgf⟩
  cases pg <;> rcases a with e | ps <;> simp [evdi_gem_get_pages, countUnref]

/-- C1 counterexample: in evdi_gem_fault, a successful insertion (result 0)
and the try-again condition (result -EAGAIN) produce the same outcome
VM_FAULT_NOPAGE at a concrete fault, so the claimed distinct Resolved and
RetryNoPage outcomes do not exist in the code: success is folded into the
retry return code. -/
theorem C1_fault_success_retry_same_outcome :
    (evdi_gem_fault ⟨4096, some [7], false, none, none⟩ 0 0 (fun _ => 0)).1 =
      (evdi_gem_fault ⟨4096, some [7], false, none, none⟩ 0 0 (fun _ => -EAGAIN)).1 ∧
    (evdi_gem_fault ⟨4096, some [7], false, none, none⟩ 0 0 (fun _ => 0)).1 =
      VmFault.NOPAGE := by
  decide

/-- C1 (amended): when pages are not materialized the outcome is
VM_FAULT_SIGBUS; otherwise the outcome is VM_FAULT_NOPAGE exactly when the
insertion primitive returned -EAGAIN, 0 or -ERESTARTSYS (success and both
transient conditions are one outcome), VM_FAULT_OOM exactly on -ENOMEM, and
VM_FAULT_SIGBUS exactly on any other failure. -/
theorem C1_fault_outcome_mapping (obj : EvdiGemObject) (vmStart addr : Nat)
    (ins : Nat → Int) :
    (obj.pages = none → (evdi_gem_fault obj vmStart addr ins).1 = VmFault.SIGBUS) ∧
    (∀ ps, obj.pages = some ps →
      (((evdi_gem_fault obj vmStart addr ins).1 = VmFault.NOPAGE) ↔
        (ins (ps.getD (fault_page_offset vmStart addr) 0) = -EAGAIN ∨
         ins (ps.getD (fault_page_offset vmStart addr) 0) = 0 ∨
         ins (ps.getD (fault_page_offset vmStart addr) 0) = -ERESTARTSYS)) ∧
      (((evdi_gem_fault obj vmStart addr ins).1 = VmFault.OOM) ↔
        ins (ps.getD (fault_page_offset vmStart addr) 0) = -ENOMEM) ∧
      (((evdi_gem_fault obj vmStart addr ins).1 = VmFault.SIGBUS) ↔
        (¬ (ins (ps.getD (fault_page_offset vmStart addr) 0) = -EAGAIN ∨
            ins (ps.getD (fault_page_offset vmStart addr) 0) = 0 ∨
            ins (ps.getD (fault_page_offset vmStart addr) 0) = -ERESTARTSYS) ∧
         ins (ps.getD (fault_page_offset vmStart addr) 0) ≠ -ENOMEM))) := by
  constructor
  · intro h
    simp [evdi_gem_fault, h]
  · intro ps hps
    simp only [evdi_gem_fault, hps, EAGAIN, ENOMEM, ERESTARTSYS]
    split_ifs with h1 h2
    · exact ⟨iff_of_true rfl h1, iff_of_false (by decide) (by omega),
        iff_of_false (by decide) (by tauto)⟩
    · exact ⟨iff_of_false (by decide) h1, iff_of_true rfl h2,
        iff_of_false (by decide) (by tauto)⟩
    · exact ⟨iff_of_false (by decide) h1, iff_of_false (by decide) h2,
        iff_of_true rfl ⟨h1, h2⟩⟩

/-- C1 witness: applying the amended mapping at a concrete object with
materialized pages and an insertion primitive reporting -ENOMEM yields
VM_FAULT_OOM. -/
theorem C1_fault_outcome_mapping_witness :
    (evdi_gem_fault ⟨4096, some [7], false, none, none⟩ 0 0
      (fun _ => -ENOMEM)).1 = VmFault.OOM :=
  (((C1_fault_outcome_mapping ⟨4096, some [7], false, none, none⟩ 0 0
      (fun _ => -ENOMEM)).2 [7] rfl).2.1).mpr rfl

/-- C2 counterexample: on a non-imported object, the second evdi_gem_vunmap
right after a first one is not a no-op: it invokes the page-release primitive
drm_gem_put_pages again, now with the already-cleared (NULL) page array, so
its call trace is not empty. -/
theorem C2_second_vunmap_not_noop :
    (evdi_gem_vunmap (evdi_gem_vunmap ⟨4096, some [3], false, some 50, none⟩).1).2 =
      [Event.drmGemPutPages none] ∧
    (evdi_gem_vunmap (evdi_gem_vunmap ⟨4096, some [3], false, some 50, none⟩).1).2 ≠
      ([] : List Event) := by
  decide

/-- C2 (amended): a second evdi_gem_vunmap leaves the object state unchanged
and signals no error, and evdi_gem_put_pages always clears the page array
reference and is state-idempotent when pages are already absent; but the
second unmap is not call-free: the non-imported branch of put_pages invokes
the release primitive even with the page array absent (with a NULL array). -/
theorem C2_vunmap_second_call_state (obj : EvdiGemObject) :
    ((evdi_gem_vunmap (evdi_gem_vunmap obj).1).1 = (evdi_gem_vunmap obj).1) ∧
    ((evdi_gem_put_pages obj).1.pages = none) ∧
    (obj.pages = none → (evdi_gem_put_pages obj).1 = obj) ∧
    (obj.pages = none → obj.importAttach = false →
      (evdi_gem_put_pages obj).2 = [Event.drmGemPutPages none]) := by
  rcases obj with ⟨s, pg, imp, vm, sgf⟩
  cases imp <;> cases vm <;> cases pg <;>
    simp [evdi_gem_vunmap, evdi_gem_put_pages]

/-- C2 witness: put_pages on a non-imported object whose pages are already
absent leaves the object unchanged while still emitting the release call with
the NULL array. -/
theorem C2_vunmap_second_call_state_witness :
    ((evdi_gem_put_pages ⟨4096, none, false, none, none⟩).1 =
      ⟨4096, none, false, none, none⟩) ∧
    ((evdi_gem_put_pages ⟨4096, none, false, none, none⟩).2 =
      [Event.drmGemPutPages none]) :=
  ⟨(C2_vunmap_second_call_state ⟨4096, none, false, none, none⟩).2.2.1 rfl,
   (C2_vunmap_second_call_state ⟨4096, none, false, none, none⟩).2.2.2 rfl rfl⟩

/-- C3 counterexample: when the scatter-gather mapping step fails, the
release subsequence of the unwind trace is detach, then the foreign-buffer
reference drop, then the device reference drop — not the symmetric reverse of
the acquisition order (which would drop the foreign-buffer reference taken in
step 3 before detaching the step-2 attachment). -/
theorem C3_unwind_order_not_symmetric :
    releaseSeq (evdi_gem_prime_import 8192 (Except.ok ())
      (Except.error (-ENOMEM)) true true).2 =
      [Event.dmaBufDetach, Event.dmaBufPut, Event.putDevice] ∧
    releaseSeq (evdi_gem_prime_import 8192 (Except.ok ())
      (Except.error (-ENOMEM)) true true).2 ≠
      [Event.dmaBufPut, Event.dmaBufDetach, Event.putDevice] := by
  decide

/-- C3 (amended): when the fourth acquisition step (scatter-gather mapping)
fails, the import returns the mapping primitive error and its full trace is
the four acquisition calls followed by dma_buf_detach, dma_buf_put and
put_device — each release occurring exactly once, the device reference
released last, the attachment detached before the foreign-buffer reference is
dropped — and no page or mapping teardown call (free_pages or vunmap
variants) is made. -/
theorem C3_import_map_failure_unwind (sz : Nat) (e : Int) (aO aP : Bool) :
    (evdi_gem_prime_import sz (Except.ok ()) (Except.error e) aO aP).1 =
      Except.error e ∧
    (evdi_gem_prime_import sz (Except.ok ()) (Except.error e) aO aP).2 =
      [Event.getDevice, Event.dmaBufAttach, Event.getDmaBuf,
       Event.dmaBufMapAttachment, Event.dmaBufDetach, Event.dmaBufPut,
       Event.putDevice] ∧
    ((evdi_gem_prime_import sz (Except.ok ()) (Except.error e) aO aP).2).filter
      isPageTeardown = [] := by
  refine ⟨rfl, rfl, rfl⟩

/-- C4: the trace of evdi_gem_free_object is exactly: (1) the unmap calls when
a kernel mapping is live (for non-imported objects this includes the page
release, and afterwards no separate page release occurs); (2) the import
release pair (drm_prime_gem_destroy, put_device) when imported; (3) the page
release when pages are still present; (4) drm_gem_free_mmap_offset, always
last. In particular the import relationship is released only after the
mapping teardown and before the final mmap-offset release, inside the
teardown function. -/
theorem C4_free_object_order (obj : EvdiGemObject) :
    (evdi_gem_free_object obj).2 =
      (if obj.importAttach then
        (if obj.vmapping.isSome then [Event.dmaBufVunmap obj.vmapping] else []) ++
          [Event.drmPrimeGemDestroy, Event.putDevice] ++
          (if obj.pages.isSome then [Event.drmFreeLarge obj.pages] else []) ++
          [Event.freeMmapOffset]
      else
        match obj.vmapping with
        | some a => [Event.vunmapCall a, Event.drmGemPutPages obj.pages,
            Event.freeMmapOffset]
        | none =>
          (if obj.pages.isSome then [Event.drmGemPutPages obj.pages] else []) ++
            [Event.freeMmapOffset]) := by
  rcases obj with ⟨s, pg, imp, vm, sgf⟩
  cases imp <;> cases vm <;> cases pg <;>
    simp [evdi_gem_free_object, evdi_gem_vunmap, evdi_gem_put_pages]

/-- C5 counterexample: for width 2 ^ 31, bpp 16, the stored pitch is 0, not
the mathematical width * ceil(bpp / 8) = 2 ^ 32: the u32 multiplication
wraps, so the claimed exact formula fails at this creation request. -/
theorem C5_pitch_overflow_counterexample :
    (evdi_dumb_create (2 ^ 31) 1 16 true (Except.ok 1)).pitch = 0 ∧
    (evdi_dumb_create (2 ^ 31) 1 16 true (Except.ok 1)).pitch ≠
      2 ^ 31 * ((16 + 7) / 8) := by
  decide

/-- C5 (amended): evdi_dumb_create computes pitch = (width * ceil(bpp / 8))
mod 2 ^ 32 and size = (pitch * height) mod 2 ^ 32 — equal to the exact
formulas whenever the intermediate values stay below 2 ^ 32 — and the
computed size is exactly the size argument passed on to evdi_gem_create for
object creation and handle registration. -/
theorem C5_dumb_create_formula (w h b : Nat) (aOk : Bool) (hRes : Except Int Nat) :
    ((evdi_dumb_create w h b aOk hRes).pitch = (w * DIV_ROUND_UP_u32 b 8) % U32) ∧
    ((evdi_dumb_create w h b aOk hRes).size =
      ((evdi_dumb_create w h b aOk hRes).pitch * h) % U32) ∧
    (b + 7 < U32 → w * ((b + 7) / 8) < U32 →
      (evdi_dumb_create w h b aOk hRes).pitch = w * ((b + 7) / 8)) ∧
    ((evdi_dumb_create w h b aOk hRes).pitch * h < U32 →
      (evdi_dumb_create w h b aOk hRes).size =
        (evdi_dumb_create w h b aOk hRes).pitch * h) ∧
    ((evdi_dumb_create w h b aOk hRes).gemCreateSize =
      (evdi_dumb_create w h b aOk hRes).size) := by
  refine ⟨rfl, rfl, ?_, ?_, rfl⟩
  · intro h1 h2
    show (w * DIV_ROUND_UP_u32 b 8) % U32 = w * ((b + 7) / 8)
    have e1 : DIV_ROUND_UP_u32 b 8 = (b + 7) / 8 := by
      simp only [DIV_ROUND_UP_u32]
      rw [show b + 8 - 1 = b + 7 from by omega, Nat.mod_eq_of_lt h1]
    rw [e1, Nat.mod_eq_of_lt h2]
  · intro h1
    exact Nat.mod_eq_of_lt h1

/-- C5 witness: on the spec scenario width 100, bpp 32, height 50 no wrap
occurs and the exact values pitch 400 and size 20000 are produced. -/
theorem C5_dumb_create_formula_witness :
    (evdi_dumb_create 100 50 32 true (Except.ok 7)).pitch = 400 ∧
    (evdi_dumb_create 100 50 32 true (Except.ok 7)).size = 20000 := by
  have h := C5_dumb_create_formula 100 50 32 true (Except.ok 7)
  exact ⟨(h.2.2.1 (by decide) (by decide)).trans (by decide),
    (h.2.2.2.1 (by decide)).trans (by decide)⟩

/-- C6: evdi_gem_get_pages is idempotent — with pages already materialized it
returns 0 at once with no allocator call; after any successful call a second
call performs no allocator call; and when the allocator fails the error is
propagated with the object unchanged (pages still unset). The hypothesis on
the oracle states that an error pointer never carries errno 0. -/
theorem C6_get_pages_idempotent (obj : EvdiGemObject) (a a2 : Except Int (List Nat))
    (he : ∀ e, a = Except.error e → e ≠ 0) :
    (obj.pages.isSome = true → evdi_gem_get_pages obj a = (0, obj, [])) ∧
    ((evdi_gem_get_pages obj a).1 = 0 →
      evdi_gem_get_pages (evdi_gem_get_pages obj a).2.1 a2 =
        (0, (evdi_gem_get_pages obj a).2.1, [])) ∧
    (∀ e, obj.pages = none → a = Except.error e →
      evdi_gem_get_pages obj a = (e, obj, [Event.drmGemGetPages])) := by
  rcases obj with ⟨s, pg, imp, vm, sgf⟩
  rcases pg with _ | ps0
  · rcases a with e | ps
    · refine ⟨by simp, ?_, by simp [evdi_gem_get_pages]⟩
      intro h0
      simp [evdi_gem_get_pages] at h0
      exact absurd h0 (he e rfl)
    · exact ⟨by simp, fun _ => by simp [evdi_gem_get_pages], by simp⟩
  · exact ⟨fun _ => by simp [evdi_gem_get_pages],
      fun _ => by simp [evdi_gem_get_pages], by simp⟩

/-- C6 witness: a call on an object with pages already materialized returns 0
immediately, unchanged, with an empty call trace, even though the allocator
oracle would fail. -/
theorem C6_get_pages_idempotent_witness :
    evdi_gem_get_pages ⟨4096, some [5], false, none, none⟩ (Except.error (-12)) =
      (0, ⟨4096, some [5], false, none, none⟩, []) :=
  (C6_get_pages_idempotent ⟨4096, some [5], false, none, none⟩
    (Except.error (-12)) (Except.ok []) (fun e h => by cases h; decide)).1 rfl

/-- C7: evdi_gem_mmap returns -ENOENT with no reference activity for an
invalid handle; after a successful lookup it drops the lookup reference
exactly once on every outcome, propagates a page-acquisition failure,
propagates an offset-allocation failure, and on full success returns 0 and
the offset token. -/
theorem C7_mmap_spec (alloc : Except Int (List Nat)) (offRes : Except Int Nat)
    (gobj : EvdiGemObject) :
    (evdi_gem_mmap none alloc offRes = (-ENOENT, none, [])) ∧
    (countUnref (evdi_gem_mmap (some gobj) alloc offRes).2.2 = 1) ∧
    ((evdi_gem_get_pages gobj alloc).1 ≠ 0 →
      (evdi_gem_mmap (some gobj) alloc offRes).1 =
        (evdi_gem_get_pages gobj alloc).1) ∧
    (∀ e, (evdi_gem_get_pages gobj alloc).1 = 0 → offRes = Except.error e →
      (evdi_gem_mmap (some gobj) alloc offRes).1 = e) ∧
    (∀ off, (evdi_gem_get_pages gobj alloc).1 = 0 → offRes = Except.ok off →
      (evdi_gem_mmap (some gobj) alloc offRes).1 = 0 ∧
      (evdi_gem_mmap (some gobj) alloc offRes).2.1 = some off) := by
  refine ⟨rfl, ?_, ?_, ?_, ?_⟩
  · have hz := countUnref_get_pages gobj alloc
    by_cases h : (evdi_gem_get_pages gobj alloc).1 = 0 <;>
      rcases offRes with e0 | off0 <;>
        simp [evdi_gem_mmap, h, countUnref_append, countUnref, hz]
  · intro hne
    simp [evdi_gem_mmap, hne]
  · intro e h0 hoff
    subst hoff
    simp [evdi_gem_mmap, h0]
  · intro off h0 hoff
    subst hoff
    simp [evdi_gem_mmap, h0]

/-- C7 witness: with a valid handle but failing page acquisition, the
allocator error -12 is propagated as the return value. -/
theorem C7_mmap_spec_witness :
    (evdi_gem_mmap (some ⟨4096, none, false, none, none⟩) (Except.error (-12))
      (Except.ok 3)).1 = -12 := by
  have h := (C7_mmap_spec (Except.error (-12)) (Except.ok 3)
      ⟨4096, none, false, none, none⟩).2.2.1 (by decide)
  exact h.trans (by decide)

/-- C8 counterexample: because page_offset is an unsigned int, the shifted
u64 difference is truncated modulo 2 ^ 32 before indexing. At region start 0
and faulting address 2 ^ 44 the computed index wraps to 0, which is in
bounds for a one-page array, even though the address does not lie within
length-many pages of the region start — so in-bounds access does not hold
only under that precondition. -/
theorem C8_wrap_in_bounds_counterexample :
    (evdi_gem_fault ⟨4096, some [5], false, none, none⟩ 0 (2 ^ 44)
      (fun _ => 0)).2 = some (fault_page_offset 0 (2 ^ 44)) ∧
    fault_page_offset 0 (2 ^ 44) < ([5] : List Nat).length ∧
    ¬ ((2 : Nat) ^ 44 < 0 + ([5] : List Nat).length * PAGE_SIZE) := by
  decide

/-- C8 (amended): with pages materialized, evdi_gem_fault always reads the
page array at the computed offset — for every page list, including ones
shorter than the offset, so there is no bounds check beyond the non-NULL
guard. The offset is the u32 truncation of (addr - vm_start) / PAGE_SIZE; an
address within length-many pages of the region start always yields an
in-bounds access, and below the 2 ^ 32-page wrap threshold the access is in
bounds exactly under that precondition — beyond it the truncation can wrap
an out-of-range address back in bounds, so the precondition is sufficient
but not necessary. -/
theorem C8_fault_unchecked_truncated_index (obj : EvdiGemObject) (ps : List Nat)
    (vmStart addr : Nat) (ins : Nat → Int)
    (hp : obj.pages = some ps) (hs : vmStart ≤ addr) (ha : addr < U64) :
    (evdi_gem_fault obj vmStart addr ins).2 =
      some (fault_page_offset vmStart addr) ∧
    fault_page_offset vmStart addr = ((addr - vmStart) / PAGE_SIZE) % U32 ∧
    (addr < vmStart + ps.length * PAGE_SIZE →
      fault_page_offset vmStart addr < ps.length) ∧
    (addr - vmStart < U32 * PAGE_SIZE →
      (fault_page_offset vmStart addr < ps.length ↔
        addr < vmStart + ps.length * PAGE_SIZE)) := by
  have hU : U64 = 18446744073709551616 := by norm_num [U64]
  rw [hU] at ha
  have h1 : (2 : Nat) ^ 64 = 18446744073709551616 := by norm_num
  have h2 : (2 : Nat) ^ 12 = 4096 := by norm_num
  have h3 : (2 : Nat) ^ 32 = 4294967296 := by norm_num
  have hoff : fault_page_offset vmStart addr =
      ((addr - vmStart) / PAGE_SIZE) % U32 := by
    simp only [fault_page_offset, U64, U32, PAGE_SIZE, PAGE_SHIFT]
    rw [h1, h2, h3]
    have hsub : (addr + 18446744073709551616 - vmStart) % 18446744073709551616 =
        addr - vmStart := by omega
    rw [hsub]
  refine ⟨?_, hoff, ?_, ?_⟩
  · simp only [evdi_gem_fault, hp]
    split_ifs <;> rfl
  · intro hb
    rw [hoff]
    simp only [PAGE_SIZE, U32] at hb ⊢
    have hx : (addr - vmStart) / 4096 < ps.length := by omega
    exact lt_of_le_of_lt (Nat.mod_le _ _) hx
  · intro hw
    rw [hoff]
    simp only [PAGE_SIZE, U32] at hw ⊢
    have hxlt : (addr - vmStart) / 4096 < 2 ^ 32 :=
      (Nat.div_lt_iff_lt_mul (by norm_num)).mpr hw
    rw [Nat.mod_eq_of_lt hxlt]
    omega

/-- C8 witness: a two-page object faulting two pages past the region start is
read at index 2, one past the end of its page array — the unchecked access at
a concrete out-of-range input below the wrap threshold. -/
theorem C8_fault_unchecked_truncated_index_witness :
    (evdi_gem_fault ⟨8192, some [5, 6], false, none, none⟩ 4096 12288
      (fun _ => 0)).2 = some (fault_page_offset 4096 12288) ∧
    fault_page_offset 4096 12288 = 2 := by
  have h := C8_fault_unchecked_truncated_index ⟨8192, some [5, 6], false, none, none⟩
    [5, 6] 4096 12288 (fun _ => 0) rfl (by decide) (by decide)
  exact ⟨h.1, h.2.1.trans (by decide)⟩

/-- C9: the size stored by evdi_dumb_create is always the 32-bit wrapped
value (below 2 ^ 32), and for the in-range input width 2 ^ 31, bpp 16,
height 1 the stored size is strictly smaller than the mathematical
width * ceil(bpp / 8) * height. -/
theorem C9_dumb_create_u32_wrap :
    (∀ w h b aOk hRes, (evdi_dumb_create w h b aOk hRes).size < U32) ∧
    (∃ w h b, w < U32 ∧ h < U32 ∧ b < U32 ∧
      (evdi_dumb_create w h b true (Except.ok 1)).size <
        w * ((b + 7) / 8) * h) := by
  constructor
  · intro w h b aOk hRes
    exact Nat.mod_lt _ (by norm_num [U32])
  · exact ⟨2 ^ 31, 1, 16, by decide, by decide, by decide, by decide⟩

/-- C10: when the local page-reference array allocation fails after the local
object was allocated, the import fails with -ENOMEM and unwinds the
scatter-gather mapping, the attachment, the foreign-buffer reference and the
device reference — while the trace contains the object allocation but no
release or free of the local object. -/
theorem C10_prime_pages_failure_leaks_object (sz sg : Nat) :
    (evdi_gem_prime_import sz (Except.ok ()) (Except.ok sg) true false).1 =
      Except.error (-ENOMEM) ∧
    (evdi_gem_prime_import sz (Except.ok ()) (Except.ok sg) true false).2 =
      [Event.getDevice, Event.dmaBufAttach, Event.getDmaBuf,
       Event.dmaBufMapAttachment, Event.allocObject (sz / PAGE_SIZE * PAGE_SIZE),
       Event.drmMallocAb, Event.dmaBufUnmapAttachment, Event.dmaBufDetach,
       Event.dmaBufPut, Event.putDevice] ∧
    ((evdi_gem_prime_import sz (Except.ok ()) (Except.ok sg) true false).2).filter
      isObjectRelease = [] := by
  refine ⟨rfl, rfl, rfl⟩

end Evdi
